import Mathlib

/-!
Shallow embedding of the Vertical Pod Autoscaler recommender entry point
(`vertical-pod-autoscaler/pkg/recommender/main.go`).

The embedding captures the control flow of `main`:
* the flag values it reads (as a `Config` record, one field per flag the
  claims mention, with the source's default values),
* the outcomes of its two fallible external calls — Go's
  `time.ParseDuration` (standard library) and
  `history.NewPrometheusHistoryProvider` (repository code outside the
  provided sources) — as an `Env` record,
* the post-processor list construction, the `useCheckpoints` storage-mode
  selection, the argument list handed to `routines.NewRecommender`, the
  two `klog.Fatalf` exits, and which of `InitFromCheckpoints` /
  `InitFromHistoryProvider` is invoked (`mainStartup`),
* the ticker-driven loop body `recommender.RunOnce();
  healthCheck.UpdateLastActivity()` as an event trace (`loopTrace`),
  one start/end/update triple per timer firing, reflecting Go's
  sequential `for range ticker` semantics.
-/

namespace VPARecommender

/-- The two recommendation post-processors that `main` can place in the
chain: `routines.IntegerCPUPostProcessor` and `routines.CappingPostProcessor`. -/
inductive PostProcessor where
  | integerCPU
  | capping
deriving DecidableEq, Repr

/-- The command-line flags of `main.go` that the verified claims depend on.
Durations are in nanoseconds, as in Go's `time.Duration`. -/
structure Config where
  /-- flag `storage`, default `""` -/
  storage : String
  /-- flag `cpu-integer-post-processor-enabled`, default `false` -/
  postProcessorCPUasInteger : Bool
  /-- flag `checkpoints-gc-interval`, default 10 minutes -/
  checkpointsGCInterval : Nat
  /-- flag `recommender-interval` (metricsFetcherInterval), default 1 minute -/
  metricsFetcherInterval : Nat
  /-- flag `prometheus-query-timeout`, default `"5m"` -/
  queryTimeout : String
deriving DecidableEq, Repr

/-- The default flag values declared in `main.go`. -/
def defaultConfig : Config :=
  { storage := "",
    postProcessorCPUasInteger := false,
    checkpointsGCInterval := 600000000000,
    metricsFetcherInterval := 60000000000,
    queryTimeout := "5m" }

/-- Outcomes of the external calls `main` makes: Go's standard-library
`time.ParseDuration` (a pure function of its string argument, outside the
repository) and `history.NewPrometheusHistoryProvider` (repository code not
among the provided sources; only its success or failure matters to `main`). -/
structure Env where
  parseDuration : String → Option Nat
  newPrometheusHistoryProvider : Except String Unit

/-- `useCheckpoints := *storage != "prometheus"` from `main`. -/
def useCheckpoints (storage : String) : Bool :=
  storage != "prometheus"

/-- The post-processor list built in `main`: `IntegerCPUPostProcessor` is
appended when the `cpu-integer-post-processor-enabled` flag is set, and
`CappingPostProcessor` is appended afterwards in every case. -/
def buildPostProcessors (cpuAsInteger : Bool) : List PostProcessor :=
  let ps : List PostProcessor :=
    if cpuAsInteger then [PostProcessor.integerCPU] else []
  ps ++ [PostProcessor.capping]

/-- The arguments `main` passes to `routines.NewRecommender` (restricted to
the ones the claims mention). -/
structure RecommenderArgs where
  checkpointsGCInterval : Nat
  useCheckpoints : Bool
  postProcessors : List PostProcessor
deriving DecidableEq, Repr

/-- The `routines.NewRecommender(config, *checkpointsGCInterval,
useCheckpoints, *vpaObjectNamespace, *recommenderName, postProcessors)`
call in `main`, as the record of arguments it receives. -/
def newRecommenderArgs (cfg : Config) : RecommenderArgs :=
  { checkpointsGCInterval := cfg.checkpointsGCInterval,
    useCheckpoints := useCheckpoints cfg.storage,
    postProcessors := buildPostProcessors cfg.postProcessorCPUasInteger }

/-- The two model-initialization calls `main` can make on the cluster-state
feeder. -/
inductive InitEvent where
  | initFromCheckpoints
  | initFromHistoryProvider
deriving DecidableEq, Repr

/-- The two `klog.Fatalf` exits in `main`. -/
inductive FatalReason where
  | parseQueryTimeout
  | historyProviderInit
deriving DecidableEq, Repr

/-- What `main` has done by the time it would enter the ticker loop:
the recommender arguments, the feeder-initialization calls made (in order),
and whether a `klog.Fatalf` terminated the process first. -/
structure StartupResult where
  recommenderArgs : RecommenderArgs
  initCalls : List InitEvent
  fatal : Option FatalReason
deriving DecidableEq, Repr

/-- The startup portion of `main`, after flag parsing and before the ticker
loop, in source order: build the post-processor list and the recommender,
parse `prometheus-query-timeout` (Fatalf on error, unconditionally), then
either `InitFromCheckpoints` (when `useCheckpoints`) or construct the
Prometheus history provider (Fatalf on error) and `InitFromHistoryProvider`. -/
def mainStartup (cfg : Config) (env : Env) : StartupResult :=
  let args := newRecommenderArgs cfg
  match env.parseDuration cfg.queryTimeout with
  | none =>
      { recommenderArgs := args, initCalls := [],
        fatal := some FatalReason.parseQueryTimeout }
  | some _ =>
      if args.useCheckpoints then
        { recommenderArgs := args,
          initCalls := [InitEvent.initFromCheckpoints], fatal := none }
      else
        match env.newPrometheusHistoryProvider with
        | Except.error _ =>
            { recommenderArgs := args, initCalls := [],
              fatal := some FatalReason.historyProviderInit }
        | Except.ok _ =>
            { recommenderArgs := args,
              initCalls := [InitEvent.initFromHistoryProvider], fatal := none }

/-- Events of the ticker loop `for range ticker { recommender.RunOnce();
healthCheck.UpdateLastActivity() }`. A `RunOnce` call is modelled by a
start event and an end event so that ordering between the completion of one
call and the start of another can be stated. -/
inductive LoopEvent where
  | runOnceStart (cycle : Nat)
  | runOnceEnd (cycle : Nat)
  | updateLastActivity (cycle : Nat)
deriving DecidableEq, Repr

/-- The events of one iteration of the loop body, in execution order:
`RunOnce` starts, `RunOnce` returns, then `healthCheck.UpdateLastActivity()`
is called. -/
def loopCycleEvents (i : Nat) : List LoopEvent :=
  [LoopEvent.runOnceStart i, LoopEvent.runOnceEnd i,
   LoopEvent.updateLastActivity i]

/-- The event trace of the first `n` timer firings of the loop. Go executes
a `for range` body sequentially, so firing `i + 1`'s events follow all of
firing `i`'s. -/
def loopTrace : Nat → List LoopEvent
  | 0 => []
  | n + 1 => loopTrace n ++ loopCycleEvents n

/-- The loop trace of the whole program: `klog.Fatalf` terminates the
process, so after a fatal startup the ticker loop never runs. -/
def mainLoopTrace (cfg : Config) (env : Env) (firings : Nat) : List LoopEvent :=
  match (mainStartup cfg env).fatal with
  | some _ => []
  | none => loopTrace firings

theorem length_loopTrace (n : Nat) : (loopTrace n).length = 3 * n := by
  induction n with
  | zero => rfl
  | succ n ih => simp [loopTrace, loopCycleEvents, ih, Nat.mul_succ]

theorem loopTrace_getElem_start {n k : Nat} (h : k < n) :
    (loopTrace n)[3 * k]? = some (LoopEvent.runOnceStart k) := by
  induction n with
  | zero => omega
  | succ n ih =>
    rw [loopTrace, List.getElem?_append]
    rcases Nat.lt_succ_iff_lt_or_eq.mp h with h' | h'
    · have hlt : 3 * k < (loopTrace n).length := by rw [length_loopTrace]; omega
      simp only [hlt, if_pos]
      exact ih h'
    · subst h'
      simp only [length_loopTrace, Nat.sub_self]
      rw [if_neg (lt_irrefl (3 * k))]
      rfl

theorem loopTrace_getElem_end {n k : Nat} (h : k < n) :
    (loopTrace n)[3 * k + 1]? = some (LoopEvent.runOnceEnd k) := by
  induction n with
  | zero => omega
  | succ n ih =>
    rw [loopTrace, List.getElem?_append]
    rcases Nat.lt_succ_iff_lt_or_eq.mp h with h' | h'
    · have hlt : 3 * k + 1 < (loopTrace n).length := by
        rw [length_loopTrace]; omega
      simp only [hlt, if_pos]
      exact ih h'
    · subst h'
      simp only [length_loopTrace]
      rw [if_neg (by omega : ¬ 3 * k + 1 < 3 * k)]
      have hidx : 3 * k + 1 - 3 * k = 1 := by omega
      rw [hidx]
      rfl

theorem loopTrace_getElem_update {n k : Nat} (h : k < n) :
    (loopTrace n)[3 * k + 2]? = some (LoopEvent.updateLastActivity k) := by
  induction n with
  | zero => omega
  | succ n ih =>
    rw [loopTrace, List.getElem?_append]
    rcases Nat.lt_succ_iff_lt_or_eq.mp h with h' | h'
    · have hlt : 3 * k + 2 < (loopTrace n).length := by
        rw [length_loopTrace]; omega
      simp only [hlt, if_pos]
      exact ih h'
    · subst h'
      simp only [length_loopTrace]
      rw [if_neg (by omega : ¬ 3 * k + 2 < 3 * k)]
      have hidx : 3 * k + 2 - 3 * k = 2 := by omega
      rw [hidx]
      rfl

theorem loopTrace_end_pos {n p i : Nat}
    (h : (loopTrace n)[p]? = some (LoopEvent.runOnceEnd i)) :
    p = 3 * i + 1 ∧ i < n := by
  induction n with
  | zero => simp [loopTrace] at h
  | succ n ih =>
    rw [loopTrace, List.getElem?_append] at h
    by_cases hp : p < (loopTrace n).length
    · simp only [hp, if_pos] at h
      rcases ih h with ⟨h1, h2⟩
      exact ⟨h1, Nat.lt_succ_of_lt h2⟩
    · simp only [hp, if_neg] at h
      rw [length_loopTrace] at hp h
      have hge : 3 * n ≤ p := Nat.le_of_not_lt hp
      rcases hd : p - 3 * n with _ | _ | _ | d
      · rw [hd] at h; simp [loopCycleEvents] at h
      · rw [hd] at h
        simp only [loopCycleEvents] at h
        have hi : i = n := by
          have := h
          simp at this
          omega
        exact ⟨by omega, by omega⟩
      · rw [hd] at h; simp [loopCycleEvents] at h
      · rw [hd] at h; simp [loopCycleEvents] at h

theorem loopTrace_update_pos {n p i : Nat}
    (h : (loopTrace n)[p]? = some (LoopEvent.updateLastActivity i)) :
    p = 3 * i + 2 ∧ i < n := by
  induction n with
  | zero => simp [loopTrace] at h
  | succ n ih =>
    rw [loopTrace, List.getElem?_append] at h
    by_cases hp : p < (loopTrace n).length
    · simp only [hp, if_pos] at h
      rcases ih h with ⟨h1, h2⟩
      exact ⟨h1, Nat.lt_succ_of_lt h2⟩
    · simp only [hp, if_neg] at h
      rw [length_loopTrace] at hp h
      have hge : 3 * n ≤ p := Nat.le_of_not_lt hp
      rcases hd : p - 3 * n with _ | _ | _ | d
      · rw [hd] at h; simp [loopCycleEvents] at h
      · rw [hd] at h; simp [loopCycleEvents] at h
      · rw [hd] at h
        simp only [loopCycleEvents] at h
        have hi : i = n := by
          have := h
          simp at this
          omega
        exact ⟨by omega, by omega⟩
      · rw [hd] at h; simp [loopCycleEvents] at h

/-- A concrete environment where both external calls succeed: the query
timeout parses (to 5 minutes in nanoseconds) and the Prometheus history
provider constructs. -/
def envOk : Env :=
  { parseDuration := fun _ => some 300000000000,
    newPrometheusHistoryProvider := Except.ok () }

/-- A concrete environment where the history-provider construction fails. -/
def envHistoryFail : Env :=
  { parseDuration := fun _ => some 300000000000,
    newPrometheusHistoryProvider := Except.error "connection refused" }

/-- A concrete environment where `time.ParseDuration` fails. -/
def envParseFail : Env :=
  { parseDuration := fun _ => none,
    newPrometheusHistoryProvider := Except.ok () }

/-- The default configuration with `storage` set to `prometheus`. -/
def prometheusConfig : Config :=
  { defaultConfig with storage := "prometheus" }

/-- The default configuration with `storage` set to the spec's word
`historical`, which the code does not recognize. -/
def historicalWordConfig : Config :=
  { defaultConfig with storage := "historical" }

/-- The default configuration with the cpu-integer post-processor enabled. -/
def integerOnConfig : Config :=
  { defaultConfig with postProcessorCPUasInteger := true }

/-- Claim C1: for every configuration of the cpu-integer-post-processor
flag, the list of post-processors passed to the recommender ends with the
`CappingPostProcessor`, so capping is applied after every other transform. -/
theorem capping_postProcessor_is_last (cfg : Config) :
    ((newRecommenderArgs cfg).postProcessors).getLast? =
      some PostProcessor.capping := by
  cases hb : cfg.postProcessorCPUasInteger <;>
    simp [newRecommenderArgs, buildPostProcessors, hb]

/-- Claim C2: when startup does not terminate fatally, exactly one of
`InitFromCheckpoints` and `InitFromHistoryProvider` is invoked, selected by
the storage flag — never both and never neither. -/
theorem startup_init_mode_exclusive (cfg : Config) (env : Env)
    (h : (mainStartup cfg env).fatal = none) :
    (mainStartup cfg env).initCalls =
      (if useCheckpoints cfg.storage then [InitEvent.initFromCheckpoints]
       else [InitEvent.initFromHistoryProvider]) := by
  simp only [mainStartup, newRecommenderArgs] at h ⊢
  cases hp : env.parseDuration cfg.queryTimeout with
  | none =>
    rw [hp] at h
    exact Option.noConfusion h
  | some d =>
    rw [hp] at h
    by_cases hc : useCheckpoints cfg.storage = true
    · simp [hc]
    · simp only [Bool.not_eq_true] at hc
      simp only [hc, Bool.false_eq_true, if_false] at h ⊢
      cases he : env.newPrometheusHistoryProvider with
      | error e =>
        rw [he] at h
        exact Option.noConfusion h
      | ok u => rfl

/-- Witness for C2 at the default configuration (checkpoint mode) and a
successful environment. -/
theorem startup_init_mode_exclusive_witness :
    (mainStartup defaultConfig envOk).fatal = none ∧
    (mainStartup defaultConfig envOk).initCalls =
      (if useCheckpoints defaultConfig.storage then [InitEvent.initFromCheckpoints]
       else [InitEvent.initFromHistoryProvider]) :=
  ⟨rfl, startup_init_mode_exclusive defaultConfig envOk rfl⟩

/-- Claim C3: in historical-backfill mode, if constructing the history
provider fails, the process terminates fatally: no initialization call is
made and the reconciliation loop never runs. -/
theorem historical_backfill_failure_is_fatal (cfg : Config) (env : Env)
    (msg : String)
    (hs : useCheckpoints cfg.storage = false)
    (hp : (env.parseDuration cfg.queryTimeout).isSome = true)
    (he : env.newPrometheusHistoryProvider = Except.error msg) :
    (mainStartup cfg env).fatal = some FatalReason.historyProviderInit ∧
    (mainStartup cfg env).initCalls = [] ∧
    ∀ n, mainLoopTrace cfg env n = [] := by
  obtain ⟨d, hd⟩ := Option.isSome_iff_exists.mp hp
  have hfatal : (mainStartup cfg env).fatal = some FatalReason.historyProviderInit := by
    simp only [mainStartup, newRecommenderArgs]
    rw [hd]
    simp [hs, he]
  refine ⟨hfatal, ?_, ?_⟩
  · simp only [mainStartup, newRecommenderArgs]
    rw [hd]
    simp [hs, he]
  · intro n
    simp [mainLoopTrace, hfatal]

/-- Witness for C3 with `storage = "prometheus"` and a failing provider
construction. -/
theorem historical_backfill_failure_is_fatal_witness :
    useCheckpoints prometheusConfig.storage = false ∧
    (mainStartup prometheusConfig envHistoryFail).fatal =
      some FatalReason.historyProviderInit ∧
    (mainStartup prometheusConfig envHistoryFail).initCalls = [] ∧
    mainLoopTrace prometheusConfig envHistoryFail 3 = [] :=
  ⟨rfl,
   (historical_backfill_failure_is_fatal prometheusConfig envHistoryFail
      "connection refused" rfl rfl rfl).1,
   (historical_backfill_failure_is_fatal prometheusConfig envHistoryFail
      "connection refused" rfl rfl rfl).2.1,
   (historical_backfill_failure_is_fatal prometheusConfig envHistoryFail
      "connection refused" rfl rfl rfl).2.2 3⟩

/-- Claim C4: the reconciliation loop is strictly serialized — for any two
timer firings `i < j`, the `RunOnce` of firing `i` has completed (its end
event occurs in the trace) before the `RunOnce` of firing `j` starts. -/
theorem runOnce_strictly_serialized (n i j : Nat) (hij : i < j) (hjn : j < n) :
    ∃ p q : Nat, p < q ∧
      (loopTrace n)[p]? = some (LoopEvent.runOnceEnd i) ∧
      (loopTrace n)[q]? = some (LoopEvent.runOnceStart j) := by
  refine ⟨3 * i + 1, 3 * j, by omega, ?_, ?_⟩
  · exact loopTrace_getElem_end (by omega)
  · exact loopTrace_getElem_start hjn

/-- Witness for C4 on a two-firing trace. -/
theorem runOnce_strictly_serialized_witness :
    ∃ p q : Nat, p < q ∧
      (loopTrace 2)[p]? = some (LoopEvent.runOnceEnd 0) ∧
      (loopTrace 2)[q]? = some (LoopEvent.runOnceStart 1) :=
  runOnce_strictly_serialized 2 0 1 (by decide) (by decide)

/-- Claim C5: the `IntegerCPUPostProcessor` is in the chain handed to the
recommender if and only if the cpu-integer-post-processor-enabled flag is
set, and when included it occupies a position strictly before the
`CappingPostProcessor`. -/
theorem integerCPU_opt_in_and_before_capping (cfg : Config) :
    (PostProcessor.integerCPU ∈ (newRecommenderArgs cfg).postProcessors ↔
      cfg.postProcessorCPUasInteger = true) ∧
    (cfg.postProcessorCPUasInteger = true →
      (newRecommenderArgs cfg).postProcessors.indexOf PostProcessor.integerCPU <
        (newRecommenderArgs cfg).postProcessors.indexOf PostProcessor.capping) := by
  constructor
  · cases hb : cfg.postProcessorCPUasInteger <;>
      simp [newRecommenderArgs, buildPostProcessors, hb]
  · intro hb
    have hpp : (newRecommenderArgs cfg).postProcessors =
        [PostProcessor.integerCPU, PostProcessor.capping] := by
      simp [newRecommenderArgs, buildPostProcessors, hb]
    rw [hpp]
    decide

/-- Witness for C5 with the flag enabled. -/
theorem integerCPU_opt_in_and_before_capping_witness :
    PostProcessor.integerCPU ∈ (newRecommenderArgs integerOnConfig).postProcessors ∧
    (newRecommenderArgs integerOnConfig).postProcessors.indexOf PostProcessor.integerCPU <
      (newRecommenderArgs integerOnConfig).postProcessors.indexOf PostProcessor.capping :=
  ⟨(integerCPU_opt_in_and_before_capping integerOnConfig).1.mpr rfl,
   (integerCPU_opt_in_and_before_capping integerOnConfig).2 rfl⟩

/-- Claim C6: after every completed `RunOnce`, and only then, the health
check's last-activity timestamp is updated: every `RunOnce` end event is
immediately followed by an `UpdateLastActivity` event of the same cycle,
and every `UpdateLastActivity` event is immediately preceded by the end of
that cycle's `RunOnce`. -/
theorem lastActivity_updated_after_each_runOnce (n p i : Nat) :
    ((loopTrace n)[p]? = some (LoopEvent.runOnceEnd i) →
      (loopTrace n)[p + 1]? = some (LoopEvent.updateLastActivity i)) ∧
    ((loopTrace n)[p]? = some (LoopEvent.updateLastActivity i) →
      p = 3 * i + 2 ∧
      (loopTrace n)[3 * i + 1]? = some (LoopEvent.runOnceEnd i)) := by
  constructor
  · intro h
    rcases loopTrace_end_pos h with ⟨hp, hin⟩
    subst hp
    have hq : 3 * i + 1 + 1 = 3 * i + 2 := by omega
    rw [hq]
    exact loopTrace_getElem_update hin
  · intro h
    rcases loopTrace_update_pos h with ⟨hp, hin⟩
    exact ⟨hp, loopTrace_getElem_end hin⟩

/-- Witness for C6 on a one-firing trace. -/
theorem lastActivity_updated_after_each_runOnce_witness :
    (loopTrace 1)[1 + 1]? = some (LoopEvent.updateLastActivity 0) :=
  (lastActivity_updated_after_each_runOnce 1 1 0).1 (by decide)

/-- Claim C8: the garbage-collection interval handed to the recommender is
exactly the checkpoints-gc-interval flag value, and it is unchanged by any
change to the metrics-fetch interval (it is not derived from it). -/
theorem gcInterval_is_checkpointsGCInterval (cfg : Config)
    (newFetchInterval : Nat) :
    (newRecommenderArgs cfg).checkpointsGCInterval =
      cfg.checkpointsGCInterval ∧
    (newRecommenderArgs
        { cfg with metricsFetcherInterval := newFetchInterval }).checkpointsGCInterval =
      (newRecommenderArgs cfg).checkpointsGCInterval :=
  ⟨rfl, rfl⟩

/-- Claim C9: for every storage-flag value other than the exact string
`prometheus` — including the empty default and the spec's word
`historical` — the process selects checkpoint mode without any fatal error
attributable to the storage value: startup succeeds (given a parsable
query timeout) and `InitFromCheckpoints` is invoked. -/
theorem storage_selection_no_rejection (cfg : Config) (env : Env)
    (hs : cfg.storage ≠ "prometheus")
    (hp : (env.parseDuration cfg.queryTimeout).isSome = true) :
    useCheckpoints cfg.storage = true ∧
    (mainStartup cfg env).fatal = none ∧
    (mainStartup cfg env).initCalls = [InitEvent.initFromCheckpoints] := by
  have huc : useCheckpoints cfg.storage = true := by
    simpa [useCheckpoints] using hs
  obtain ⟨d, hd⟩ := Option.isSome_iff_exists.mp hp
  refine ⟨huc, ?_, ?_⟩ <;>
    · simp only [mainStartup, newRecommenderArgs]
      rw [hd]
      simp [huc]

/-- Witness for C9 at the unrecognized storage value `historical`. -/
theorem storage_selection_no_rejection_witness :
    useCheckpoints historicalWordConfig.storage = true ∧
    (mainStartup historicalWordConfig envOk).fatal = none ∧
    (mainStartup historicalWordConfig envOk).initCalls =
      [InitEvent.initFromCheckpoints] :=
  storage_selection_no_rejection historicalWordConfig envOk (by decide) rfl

/-- Claim C10: a prometheus-query-timeout value that does not parse as a
duration terminates the process for every configuration — in particular
even when checkpoint mode is selected and the timeout would never be used:
no initialization call is made and the loop never runs. -/
theorem queryTimeout_parse_failure_always_fatal (cfg : Config) (env : Env)
    (hp : env.parseDuration cfg.queryTimeout = none) :
    (mainStartup cfg env).fatal = some FatalReason.parseQueryTimeout ∧
    (mainStartup cfg env).initCalls = [] ∧
    ∀ n, mainLoopTrace cfg env n = [] := by
  have hfatal : (mainStartup cfg env).fatal = some FatalReason.parseQueryTimeout := by
    simp only [mainStartup, newRecommenderArgs]
    rw [hp]
  refine ⟨hfatal, ?_, ?_⟩
  · simp only [mainStartup, newRecommenderArgs]
    rw [hp]
  · intro n
    simp [mainLoopTrace, hfatal]

/-- Witness for C10 at the default configuration, which selects checkpoint
mode, with a failing duration parse. -/
theorem queryTimeout_parse_failure_always_fatal_witness :
    useCheckpoints defaultConfig.storage = true ∧
    (mainStartup defaultConfig envParseFail).fatal =
      some FatalReason.parseQueryTimeout ∧
    (mainStartup defaultConfig envParseFail).initCalls = [] ∧
    mainLoopTrace defaultConfig envParseFail 5 = [] :=
  ⟨rfl,
   (queryTimeout_parse_failure_always_fatal defaultConfig envParseFail rfl).1,
   (queryTimeout_parse_failure_always_fatal defaultConfig envParseFail rfl).2.1,
   (queryTimeout_parse_failure_always_fatal defaultConfig envParseFail rfl).2.2 5⟩

end VPARecommender
